import Mathlib

/-!
# Session driver of the HTTP digest authentication client

A shallow embedding of `digest_auth_client.go`: the `DigestRequest` record, its
constructor and in-place update, and the `Execute` driver with its three helpers
`executeNewDigest`, `executeExistingDigest` and `executeRequest`.

The driver talks to two kinds of collaborators, both taken as parameters
(`Collaborators`):

* the Go standard library: `http.NewRequest` (which may reject a method or URL)
  and `http.Client.Do` (which answers with a response, an error, or both);
* the challenge and authorization helpers of this package, which live in other
  files: `newWwwAuthenticate`, `newAuthorization`, `refreshAuthorization` and
  `toString`, over two types `W` (the parsed challenge) and `A` (the
  authorization state) that are left abstract.

Effects are made explicit: every driver function takes the list of physical
requests handed to `Client.Do` so far and returns the extended list together
with the request record as it is after the call.
-/

set_option autoImplicit false

namespace DigestAuthClient

/-! ## Go values -/

/-- A Go `error` value, identified by its message. -/
structure GoError where
  msg : String
deriving DecidableEq, Repr

/-- The error built by `fmt.Errorf` for a format string without verbs. -/
def fmt.Errorf (format : String) : GoError := ⟨format⟩

/-- One nanosecond-based `time.Duration` unit: `time.Second`. -/
def time.Second : Nat := 1000000000

/-- An `http.Header`: canonical key to list of values. -/
abbrev Header := List (String × List String)

/-- Canonical form of one header-key character, given whether it starts a word. -/
def canonicalChar (upper : Bool) (c : Char) : Char :=
  if upper && decide ('a' ≤ c ∧ c ≤ 'z') then Char.ofNat (c.toNat - 32)
  else if !upper && decide ('A' ≤ c ∧ c ≤ 'Z') then Char.ofNat (c.toNat + 32)
  else c

/-- The loop of `textproto.CanonicalMIMEHeaderKey`: upper case for the first
letter and for each letter after a dash, lower case elsewhere. -/
def canonicalLoop : Bool → List Char → List Char
  | _, [] => []
  | upper, c :: cs =>
    let d := canonicalChar upper c
    d :: canonicalLoop (d == '-') cs

/-- Bytes allowed in a header field name (the token characters of RFC 7230). -/
def validHeaderFieldByte (c : Char) : Bool :=
  decide ('a' ≤ c ∧ c ≤ 'z') || decide ('A' ≤ c ∧ c ≤ 'Z') || decide ('0' ≤ c ∧ c ≤ '9')
    || [33, 35, 36, 37, 38, 39, 42, 43, 45, 46, 94, 95, 96, 124, 126].contains c.toNat

/-- The key canonicalisation `textproto.CanonicalMIMEHeaderKey`: a key holding a byte
that is not a token character is returned unchanged. -/
def CanonicalMIMEHeaderKey (s : String) : String :=
  if s.data.all validHeaderFieldByte then String.mk (canonicalLoop true s.data) else s

/-- The method `Header.Get`: the first value stored under the canonical key, or `""`. -/
def Header.Get (h : Header) (key : String) : String :=
  match h.lookup (CanonicalMIMEHeaderKey key) with
  | some (v :: _) => v
  | _ => ""

/-- The method `Header.Set`: the values under the canonical key become `[value]`. -/
def Header.Set (h : Header) (key value : String) : Header :=
  (CanonicalMIMEHeaderKey key, [value]) ::
    h.filter (fun p => p.1 != CanonicalMIMEHeaderKey key)

/-- The method `Header.Add`: `value` is appended to the values under the canonical key. -/
def Header.Add (h : Header) (key value : String) : Header :=
  (CanonicalMIMEHeaderKey key, (h.lookup (CanonicalMIMEHeaderKey key)).getD [] ++ [value]) ::
    h.filter (fun p => p.1 != CanonicalMIMEHeaderKey key)

/-- Whether a header holds an entry for the key. -/
def Header.Has (h : Header) (key : String) : Bool :=
  (h.lookup (CanonicalMIMEHeaderKey key)).isSome

/-- An `http.Request` as the driver builds it: the method, URL and body strings it
hands to `http.NewRequest`, and the header it fills in afterwards. -/
structure HttpRequest where
  Method : String
  URL : String
  Body : String
  Header : Header
deriving DecidableEq, Repr

/-- The part of an `http.Response` the driver reads. -/
structure HttpResponse where
  StatusCode : Int
  Header : Header
  Body : String
deriving DecidableEq, Repr

/-- An `http.Transport`, reduced to the TLS setting the driver chooses. -/
structure Transport where
  InsecureSkipVerify : Bool
deriving DecidableEq, Repr

/-- An `http.Client` as `generateClient` configures it. -/
structure Client where
  Timeout : Nat
  Transport : Option Transport
deriving DecidableEq, Repr

/-! ## The request record -/

/-- The struct `DigestRequest`; `A` is the package's `authorization` type and `W`
its `wwwAuthenticate` type, `none` standing for a nil pointer. -/
structure DigestRequest (A W : Type) where
  Body : String
  Method : String
  Password : String
  Uri : String
  Username : String
  Auth : Option A
  Wa : Option W
  ContentType : String
  SkipTLSVerify : Bool
deriving DecidableEq, Repr

/-- The collaborators of the driver. `requestError` is the error, if any, with
which `http.NewRequest` rejects a method and URL; `Do` is `http.Client.Do`, whose
answer may depend on the client, on the requests sent before and on the request;
the last four are the helpers of this package defined outside the driver's file,
taken as functions of their receiver and arguments. -/
structure Collaborators (A W : Type) where
  requestError : String → String → Option GoError
  Do : Client → List HttpRequest → HttpRequest → Option HttpResponse × Option GoError
  newWwwAuthenticate : String → W
  newAuthorization : DigestRequest A W → Except GoError A
  refreshAuthorization : A → DigestRequest A W → Except GoError A
  toString : A → String

/-- What a call of `Execute` hands back: the pair `(resp, err)`, or a run-time
panic from dereferencing a nil response. -/
inductive Outcome where
  | returned (resp : Option HttpResponse) (err : Option GoError)
  | nilDereference
deriving DecidableEq, Repr

/-- The state after a driver call: the request record, every request handed to
`Client.Do` so far, and the outcome. -/
structure Result (A W : Type) where
  dr : DigestRequest A W
  sent : List HttpRequest
  out : Outcome
deriving DecidableEq, Repr

variable {A W : Type}

/-- The function `http.NewRequest`: an error for a rejected method or URL, else a
request with an empty header. -/
def http.NewRequest (c : Collaborators A W) (method url body : String) :
    Except GoError HttpRequest :=
  match c.requestError method url with
  | some err => .error err
  | none => .ok { Method := method, URL := url, Body := body, Header := [] }

/-- The zero value `DigestRequest{}`. -/
def DigestRequest.zero : DigestRequest A W :=
  { Body := "", Method := "", Password := "", Uri := "", Username := "",
    Auth := none, Wa := none, ContentType := "", SkipTLSVerify := false }

/-- The method `UpdateRequest`: the receiver after the five assignments, paired with
the request the returned pointer designates (the receiver itself). -/
def UpdateRequest (dr : DigestRequest A W) (username password method uri body : String) :
    DigestRequest A W × DigestRequest A W :=
  let dr := { dr with Body := body }
  let dr := { dr with Method := method }
  let dr := { dr with Password := password }
  let dr := { dr with Uri := uri }
  let dr := { dr with Username := username }
  (dr, dr)

/-- The constructor `NewRequest`. -/
def NewRequest (username password method uri body : String) : DigestRequest A W :=
  let dr : DigestRequest A W := DigestRequest.zero
  (UpdateRequest dr username password method uri body).1

/-- The method `generateClient`. -/
def generateClient (dr : DigestRequest A W) (timeout : Nat) : Client :=
  if dr.SkipTLSVerify then
    { Timeout := timeout, Transport := some { InsecureSkipVerify := true } }
  else
    { Timeout := timeout, Transport := none }

/-- The header step shared by both request builders: `Content-Type` is set when the
record names one. -/
def withContentType (dr : DigestRequest A W) (req : HttpRequest) : HttpRequest :=
  if dr.ContentType ≠ "" then
    { req with Header := req.Header.Set "Content-Type" dr.ContentType }
  else req

/-- The method `executeRequest`: build the credentialed request and send it. Returns
the requests sent so far and the pair `(resp, err)`. -/
def executeRequest (c : Collaborators A W) (dr : DigestRequest A W)
    (sent : List HttpRequest) (authString : String) :
    List HttpRequest × Option HttpResponse × Option GoError :=
  match http.NewRequest c dr.Method dr.Uri dr.Body with
  | .error err => (sent, none, some err)
  | .ok req =>
    let req := { req with Header := req.Header.Add "Authorization" authString }
    let req := withContentType dr req
    let client := generateClient dr (30 * time.Second)
    let r := c.Do client sent req
    (sent ++ [req], r.1, r.2)

/-- The method `executeNewDigest`, entered with the 401 response. -/
def executeNewDigest (c : Collaborators A W) (dr : DigestRequest A W)
    (sent : List HttpRequest) (resp : HttpResponse) : Result A W :=
  let waString := resp.Header.Get "WWW-Authenticate"
  if waString = "" then
    { dr := dr, sent := sent,
      out := .returned none (some (fmt.Errorf
        "Failed to get WWW-Authenticate header, please check your server configuration.")) }
  else
    let wa := c.newWwwAuthenticate waString
    let dr := { dr with Wa := some wa }
    match c.newAuthorization dr with
    | .error err => { dr := dr, sent := sent, out := .returned none (some err) }
    | .ok auth =>
      let authString := c.toString auth
      match executeRequest c dr sent authString with
      | (sent, _, some err) => { dr := dr, sent := sent, out := .returned none (some err) }
      | (sent, resp, none) =>
        { dr := { dr with Auth := some auth }, sent := sent, out := .returned resp none }

/-- The method `executeExistingDigest`, entered with `dr.Auth` holding `old`. -/
def executeExistingDigest (c : Collaborators A W) (dr : DigestRequest A W)
    (sent : List HttpRequest) (old : A) : Result A W :=
  match c.refreshAuthorization old dr with
  | .error err => { dr := dr, sent := sent, out := .returned none (some err) }
  | .ok auth =>
    let dr := { dr with Auth := some auth }
    let authString := c.toString auth
    match executeRequest c dr sent authString with
    | (sent, resp, err) => { dr := dr, sent := sent, out := .returned resp err }

/-- The unauthenticated request `Execute` builds first. -/
def firstRequest (dr : DigestRequest A W) : HttpRequest :=
  withContentType dr { Method := dr.Method, URL := dr.Uri, Body := dr.Body, Header := [] }

/-- The method `Execute`. -/
def Execute (c : Collaborators A W) (dr : DigestRequest A W) (sent : List HttpRequest) :
    Result A W :=
  match dr.Auth with
  | none =>
    match http.NewRequest c dr.Method dr.Uri dr.Body with
    | .error err => { dr := dr, sent := sent, out := .returned none (some err) }
    | .ok req =>
      let req := withContentType dr req
      let client := generateClient dr (30 * time.Second)
      let r := c.Do client sent req
      let sent := sent ++ [req]
      match r.1 with
      | none => { dr := dr, sent := sent, out := .nilDereference }
      | some resp =>
        if resp.StatusCode = 401 then executeNewDigest c dr sent resp
        else { dr := dr, sent := sent, out := .returned (some resp) r.2 }
  | some old => executeExistingDigest c dr sent old

/-- The credentialed request `executeRequest` builds for an authorization string. -/
def credentialedRequest (dr : DigestRequest A W) (authString : String) : HttpRequest :=
  withContentType dr
    { Method := dr.Method, URL := dr.Uri, Body := dr.Body,
      Header := Header.Add [] "Authorization" authString }

/-- The record after `executeNewDigest` stored the parsed challenge. -/
def withChallenge (c : Collaborators A W) (dr : DigestRequest A W) (resp : HttpResponse) :
    DigestRequest A W :=
  { dr with Wa := some (c.newWwwAuthenticate (resp.Header.Get "WWW-Authenticate")) }

/-- The client both request paths use: `generateClient(30 * time.Second)`. -/
def clientOf (dr : DigestRequest A W) : Client := generateClient dr (30 * time.Second)

/-! ## Sample collaborators

Concrete values for the parameters, used to evaluate the driver on explicit inputs. -/

/-- Modelled from the spec: the Challenge record of the data model (the package's
`wwwAuthenticate` type is declared outside the driver's file), reduced to the header
value it was parsed from and its stale flag. -/
structure Challenge where
  header : String
  stale : Bool
deriving DecidableEq, Repr

/-- Modelled from the spec: the AuthorizationState record of the data model (the
package's `authorization` type is declared outside the driver's file), reduced to the
fields the serialisation below shows. -/
structure AuthorizationState where
  username : String
  uri : String
  challenge : Challenge
  nc : Nat
deriving DecidableEq, Repr

/-- Whether `pat` occurs as a contiguous block of `l`. -/
def occursIn (pat : List Char) : List Char → Bool
  | [] => pat.isEmpty
  | c :: cs => pat.isPrefixOf (c :: cs) || occursIn pat cs

/-- Modelled from the spec: the challenge parser `newWwwAuthenticate` (absent from the
driver's file), reduced to reading the stale flag off the header value. -/
def sampleChallenge (waString : String) : Challenge :=
  { header := waString, stale := occursIn "stale=true".data waString.data }

/-- Modelled from the spec: `create` of the Authorization State component, the
package's `newAuthorization` (absent from the driver's file): the nonce count starts
at 1; a request without challenge cannot be authorized. -/
def sampleCreate (dr : DigestRequest AuthorizationState Challenge) :
    Except GoError AuthorizationState :=
  match dr.Wa with
  | none => .error (fmt.Errorf "no challenge")
  | some wa => .ok { username := dr.Username, uri := dr.Uri, challenge := wa, nc := 1 }

/-- Modelled from the spec: `refresh` of the Authorization State component, the
package's `refreshAuthorization` (absent from the driver's file): the nonce count
grows by one and fails with NonceExhausted past `0xFFFFFFFF`. -/
def sampleRefresh (a : AuthorizationState) (dr : DigestRequest AuthorizationState Challenge) :
    Except GoError AuthorizationState :=
  if a.nc + 1 > 0xFFFFFFFF then .error (fmt.Errorf "NonceExhausted")
  else .ok { a with username := dr.Username, uri := dr.Uri, nc := a.nc + 1 }

/-- One lower-case hexadecimal digit. -/
def hexDigit (n : Nat) : Char :=
  if n < 10 then Char.ofNat (48 + n) else Char.ofNat (87 + n)

/-- The nonce count as 8 lower-case hexadecimal digits. -/
def hex8 (n : Nat) : String :=
  String.mk ([7, 6, 5, 4, 3, 2, 1, 0].map (fun i => hexDigit (n / 16 ^ i % 16)))

/-- Modelled from the spec: `serialize` of the Authorization State component, the
package's `toString` (absent from the driver's file), reduced to three fields. -/
def sampleSerialize (a : AuthorizationState) : String :=
  "Digest username=" ++ a.username ++ ", uri=" ++ a.uri ++ ", nc=" ++ hex8 a.nc

/-- The method check of `http.NewRequest`: a non-empty method must consist of token
characters (an empty one stands for GET). -/
def sampleRequestError (method _url : String) : Option GoError :=
  if method ≠ "" ∧ method.data.all validHeaderFieldByte = false then
    some (fmt.Errorf ("net/http: invalid method \"" ++ method ++ "\""))
  else none

/-- One answer of `Client.Do`. -/
abbrev Reply := Option HttpResponse × Option GoError

/-- A scripted server: the n-th physical request gets the n-th reply of the script,
and a connection error once the script is used up. -/
def scripted (script : List Reply) (_ : Client) (sent : List HttpRequest) (_ : HttpRequest) :
    Reply :=
  (script.get? sent.length).getD
    (none, some (fmt.Errorf "dial tcp 127.0.0.1:80: connect: connection refused"))

/-- The sample collaborators around a scripted server. -/
def sample (script : List Reply) : Collaborators AuthorizationState Challenge :=
  { requestError := sampleRequestError
    Do := scripted script
    newWwwAuthenticate := sampleChallenge
    newAuthorization := sampleCreate
    refreshAuthorization := sampleRefresh
    toString := sampleSerialize }

/-- A 401 reply carrying a digest challenge. -/
def challenge401 (waString : String) : Reply :=
  (some { StatusCode := 401, Header := [("Www-Authenticate", [waString])], Body := "" }, none)

/-- A 401 reply without any `WWW-Authenticate` header. -/
def bare401 : Reply :=
  (some { StatusCode := 401, Header := [], Body := "" }, none)

/-- A 200 reply. -/
def ok200 : Reply :=
  (some { StatusCode := 200, Header := [], Body := "hello" }, none)

/-- A failed send: no response and a transport error. -/
def refused : Reply :=
  (none, some (fmt.Errorf "dial tcp 127.0.0.1:80: connect: connection refused"))

/-- A fresh request, as a caller builds it. -/
def aliceRequest : DigestRequest AuthorizationState Challenge :=
  NewRequest "alice" "secret123" "GET" "http://example.com/private" ""

/-- A digest challenge header value. -/
def digestHeader : String :=
  "Digest realm=\"test\", nonce=\"abc123\", qop=\"auth\", algorithm=MD5"

/-- A digest challenge header value reporting a stale nonce. -/
def staleHeader : String :=
  "Digest realm=\"test\", nonce=\"def456\", qop=\"auth\", algorithm=MD5, stale=true"

/-- The authorization state of a session negotiated earlier, used `nc` times. -/
def aliceAuth (nc : Nat) : AuthorizationState :=
  { username := "alice", uri := "http://example.com/private",
    challenge := sampleChallenge digestHeader, nc := nc }

/-- A request in the Authenticated state. -/
def aliceSession (nc : Nat) : DigestRequest AuthorizationState Challenge :=
  { aliceRequest with
    Auth := some (aliceAuth nc)
    Wa := some (sampleChallenge digestHeader) }

/-- A negotiated session updated in place with a method that is not a token. -/
def badMethodSession : DigestRequest AuthorizationState Challenge :=
  (UpdateRequest (aliceSession 1) "alice" "secret123" "BAD METHOD"
    "http://example.com/private" "").1

/-- A fresh request whose method is not a token. -/
def badMethodRequest : DigestRequest AuthorizationState Challenge :=
  NewRequest "alice" "secret123" "BAD METHOD" "http://example.com/private" ""

/-! ## Facts about the request builders -/

theorem canonical_authorization : CanonicalMIMEHeaderKey "Authorization" = "Authorization" := by
  decide

theorem canonical_content_type : CanonicalMIMEHeaderKey "Content-Type" = "Content-Type" := by
  decide

theorem http_NewRequest_accepts (c : Collaborators A W) (method url body : String)
    (h : c.requestError method url = none) :
    http.NewRequest c method url body =
      .ok { Method := method, URL := url, Body := body, Header := [] } := by
  simp [http.NewRequest, h]

theorem http_NewRequest_rejects (c : Collaborators A W) (method url body : String)
    (err : GoError) (h : c.requestError method url = some err) :
    http.NewRequest c method url body = .error err := by
  simp [http.NewRequest, h]

theorem firstRequest_fields (dr : DigestRequest A W) :
    (firstRequest dr).Method = dr.Method ∧ (firstRequest dr).URL = dr.Uri ∧
      (firstRequest dr).Body = dr.Body := by
  unfold firstRequest withContentType
  split <;> simp

theorem firstRequest_unauthenticated (dr : DigestRequest A W) :
    (firstRequest dr).Header.Has "Authorization" = false := by
  unfold firstRequest withContentType
  split
  · simp [Header.Has, Header.Set, canonical_authorization, canonical_content_type,
      List.lookup]
  · simp [Header.Has, List.lookup]

theorem credentialedRequest_fields (dr : DigestRequest A W) (authString : String) :
    (credentialedRequest dr authString).Method = dr.Method ∧
      (credentialedRequest dr authString).URL = dr.Uri ∧
      (credentialedRequest dr authString).Body = dr.Body := by
  unfold credentialedRequest withContentType
  split <;> simp

theorem credentialedRequest_header (dr : DigestRequest A W) (authString : String) :
    (credentialedRequest dr authString).Header.Has "Authorization" = true ∧
      (credentialedRequest dr authString).Header.Get "Authorization" = authString := by
  unfold credentialedRequest withContentType
  split
  · simp [Header.Has, Header.Get, Header.Set, Header.Add, canonical_authorization,
      canonical_content_type, List.lookup]
  · simp [Header.Has, Header.Get, Header.Add, canonical_authorization, List.lookup]

theorem executeRequest_accepted (c : Collaborators A W) (dr : DigestRequest A W)
    (sent : List HttpRequest) (authString : String)
    (h : c.requestError dr.Method dr.Uri = none) :
    executeRequest c dr sent authString =
      (sent ++ [credentialedRequest dr authString],
        (c.Do (clientOf dr) sent (credentialedRequest dr authString)).1,
        (c.Do (clientOf dr) sent (credentialedRequest dr authString)).2) := by
  simp [executeRequest, http.NewRequest, h, credentialedRequest, clientOf]

theorem executeRequest_rejected (c : Collaborators A W) (dr : DigestRequest A W)
    (sent : List HttpRequest) (authString : String) (err : GoError)
    (h : c.requestError dr.Method dr.Uri = some err) :
    executeRequest c dr sent authString = (sent, none, some err) := by
  simp [executeRequest, http.NewRequest, h]

/-! ## The driver on an empty session -/

/-- With `Auth` empty and the request accepted, `Execute` sends `firstRequest dr` and
branches on the answer of `Client.Do`. -/
theorem Execute_unauthenticated (c : Collaborators A W) (dr : DigestRequest A W)
    (sent : List HttpRequest) (hAuth : dr.Auth = none)
    (hReq : c.requestError dr.Method dr.Uri = none) :
    Execute c dr sent =
      match (c.Do (clientOf dr) sent (firstRequest dr)).1 with
      | none => { dr := dr, sent := sent ++ [firstRequest dr], out := .nilDereference }
      | some resp =>
        if resp.StatusCode = 401 then
          executeNewDigest c dr (sent ++ [firstRequest dr]) resp
        else
          { dr := dr, sent := sent ++ [firstRequest dr],
            out := .returned (some resp) (c.Do (clientOf dr) sent (firstRequest dr)).2 } := by
  simp [Execute, hAuth, http.NewRequest, hReq, firstRequest, clientOf]

/-- With `Auth` empty and the request rejected by `http.NewRequest`, `Execute` returns
that error and sends nothing. -/
theorem Execute_unauthenticated_rejected (c : Collaborators A W) (dr : DigestRequest A W)
    (sent : List HttpRequest) (err : GoError) (hAuth : dr.Auth = none)
    (hReq : c.requestError dr.Method dr.Uri = some err) :
    Execute c dr sent = { dr := dr, sent := sent, out := .returned none (some err) } := by
  simp [Execute, hAuth, http.NewRequest, hReq]

/-- With `Auth` set, `Execute` is `executeExistingDigest`. -/
theorem Execute_authenticated (c : Collaborators A W) (dr : DigestRequest A W)
    (sent : List HttpRequest) (old : A) (hAuth : dr.Auth = some old) :
    Execute c dr sent = executeExistingDigest c dr sent old := by
  simp [Execute, hAuth]

/-- The requests `executeRequest` adds: none, or the credentialed one. -/
theorem executeRequest_sent (c : Collaborators A W) (dr : DigestRequest A W)
    (sent : List HttpRequest) (authString : String) :
    (executeRequest c dr sent authString).1 = sent ∨
      (executeRequest c dr sent authString).1 = sent ++ [credentialedRequest dr authString] := by
  cases h : c.requestError dr.Method dr.Uri with
  | none => right; rw [executeRequest_accepted c dr sent authString h]
  | some err => left; rw [executeRequest_rejected c dr sent authString err h]

/-- The requests `executeNewDigest` adds: none, or one credentialed request. -/
theorem executeNewDigest_sent (c : Collaborators A W) (dr : DigestRequest A W)
    (sent : List HttpRequest) (resp : HttpResponse) :
    (executeNewDigest c dr sent resp).sent = sent ∨
      ∃ authString, resp.Header.Get "WWW-Authenticate" ≠ "" ∧
        (executeNewDigest c dr sent resp).sent = sent ++ [credentialedRequest dr authString] := by
  unfold executeNewDigest
  by_cases hwa : resp.Header.Get "WWW-Authenticate" = ""
  · left; simp [hwa]
  · simp only [hwa, if_false]
    cases hnew : c.newAuthorization
        { dr with Wa := some (c.newWwwAuthenticate (resp.Header.Get "WWW-Authenticate")) } with
    | error err => left; rfl
    | ok auth =>
      simp only []
      rcases executeRequest_sent c
          { dr with Wa := some (c.newWwwAuthenticate (resp.Header.Get "WWW-Authenticate")) }
          sent (c.toString auth) with h | h
      · left
        split <;> simp_all
      · right
        refine ⟨c.toString auth, by simpa using hwa, ?_⟩
        have hc : credentialedRequest
            { dr with Wa := some (c.newWwwAuthenticate (resp.Header.Get "WWW-Authenticate")) }
            (c.toString auth) = credentialedRequest dr (c.toString auth) := rfl
        rw [hc] at h
        split <;> simp_all

/-- The requests `executeExistingDigest` adds: none, or one credentialed request. -/
theorem executeExistingDigest_sent (c : Collaborators A W) (dr : DigestRequest A W)
    (sent : List HttpRequest) (old : A) :
    (executeExistingDigest c dr sent old).sent = sent ∨
      ∃ authString,
        (executeExistingDigest c dr sent old).sent =
          sent ++ [credentialedRequest dr authString] := by
  unfold executeExistingDigest
  cases href : c.refreshAuthorization old dr with
  | error err => left; rfl
  | ok auth =>
    simp only []
    rcases executeRequest_sent c { dr with Auth := some auth } sent (c.toString auth) with h | h
    · left; exact h
    · right; exact ⟨c.toString auth, h⟩

/-- Past the header check and the construction of the authorization,
`executeNewDigest` sends the credentialed request and stores the authorization
exactly when `Client.Do` reports no error. -/
theorem executeNewDigest_resend (c : Collaborators A W) (dr : DigestRequest A W)
    (sent : List HttpRequest) (resp : HttpResponse) (auth : A)
    (hReq : c.requestError dr.Method dr.Uri = none)
    (hwa : resp.Header.Get "WWW-Authenticate" ≠ "")
    (hNew : c.newAuthorization (withChallenge c dr resp) = .ok auth) :
    executeNewDigest c dr sent resp =
      match (c.Do (clientOf dr) sent (credentialedRequest dr (c.toString auth))).2 with
      | some err =>
        { dr := withChallenge c dr resp,
          sent := sent ++ [credentialedRequest dr (c.toString auth)],
          out := .returned none (some err) }
      | none =>
        { dr := { withChallenge c dr resp with Auth := some auth },
          sent := sent ++ [credentialedRequest dr (c.toString auth)],
          out := .returned
            (c.Do (clientOf dr) sent (credentialedRequest dr (c.toString auth))).1 none } := by
  have hacc := executeRequest_accepted c (withChallenge c dr resp) sent (c.toString auth) hReq
  have hc : credentialedRequest (withChallenge c dr resp) (c.toString auth)
      = credentialedRequest dr (c.toString auth) := rfl
  have hk : clientOf (withChallenge c dr resp) = clientOf dr := rfl
  rw [hc, hk] at hacc
  unfold executeNewDigest
  simp only [hwa, if_false]
  unfold withChallenge at hNew hacc
  simp only [hNew, hacc]
  cases (c.Do (clientOf dr) sent (credentialedRequest dr (c.toString auth))).2 <;> rfl

/-- When the authorization cannot be built, `executeNewDigest` returns the error and
sends nothing. -/
theorem executeNewDigest_build_error (c : Collaborators A W) (dr : DigestRequest A W)
    (sent : List HttpRequest) (resp : HttpResponse) (err : GoError)
    (hwa : resp.Header.Get "WWW-Authenticate" ≠ "")
    (hNew : c.newAuthorization (withChallenge c dr resp) = .error err) :
    executeNewDigest c dr sent resp =
      { dr := withChallenge c dr resp, sent := sent, out := .returned none (some err) } := by
  unfold executeNewDigest
  simp only [hwa, if_false]
  unfold withChallenge at hNew
  simp only [hNew]
  rfl

/-! ## Construction and update -/

/-- C9: `UpdateRequest` overwrites Username, Password, Method, Uri and Body with its
arguments, leaves Auth, Wa, ContentType and SkipTLSVerify (hence the client
configuration) as they were, and returns the updated receiver itself. -/
theorem UpdateRequest_frame (dr : DigestRequest A W)
    (username password method uri body : String) :
    (UpdateRequest dr username password method uri body).1.Username = username ∧
    (UpdateRequest dr username password method uri body).1.Password = password ∧
    (UpdateRequest dr username password method uri body).1.Method = method ∧
    (UpdateRequest dr username password method uri body).1.Uri = uri ∧
    (UpdateRequest dr username password method uri body).1.Body = body ∧
    (UpdateRequest dr username password method uri body).1.Auth = dr.Auth ∧
    (UpdateRequest dr username password method uri body).1.Wa = dr.Wa ∧
    (UpdateRequest dr username password method uri body).1.ContentType = dr.ContentType ∧
    (UpdateRequest dr username password method uri body).1.SkipTLSVerify = dr.SkipTLSVerify ∧
    (∀ timeout, generateClient (UpdateRequest dr username password method uri body).1 timeout
      = generateClient dr timeout) ∧
    (UpdateRequest dr username password method uri body).2 =
      (UpdateRequest dr username password method uri body).1 :=
  ⟨rfl, rfl, rfl, rfl, rfl, rfl, rfl, rfl, rfl, fun _ => rfl, rfl⟩

/-! ## Bound on the number of physical requests -/

/-- C4: whatever the record and the collaborators, one call of `Execute` hands to
`Client.Do` at most two requests: at most one without `Authorization` header,
followed by at most one with it; and on an empty session the credentialed one is
only sent after a 401 answer carrying a `WWW-Authenticate` value. -/
theorem Execute_at_most_two_requests (c : Collaborators A W) (dr : DigestRequest A W)
    (sent : List HttpRequest) :
    ∃ probe resend : List HttpRequest,
      (Execute c dr sent).sent = sent ++ probe ++ resend ∧
      probe.length ≤ 1 ∧ resend.length ≤ 1 ∧
      (Execute c dr sent).sent.length ≤ sent.length + 2 ∧
      (∀ r ∈ probe, r = firstRequest dr ∧ r.Header.Has "Authorization" = false) ∧
      (∀ r ∈ resend, r.Header.Has "Authorization" = true) ∧
      (dr.Auth = none → resend ≠ [] →
        ∃ resp, (c.Do (clientOf dr) sent (firstRequest dr)).1 = some resp ∧
          resp.StatusCode = 401 ∧ resp.Header.Get "WWW-Authenticate" ≠ "") := by
  cases hAuth : dr.Auth with
  | some old =>
    rw [Execute_authenticated c dr sent old hAuth]
    rcases executeExistingDigest_sent c dr sent old with h | ⟨authString, h⟩
    · exact ⟨[], [], by simp [h], by simp, by simp, by simp [h], by simp, by simp, by simp⟩
    · refine ⟨[], [credentialedRequest dr authString], by simp [h], by simp, by simp,
        by simp [h], by simp, ?_, by simp⟩
      intro r hr
      rw [List.mem_singleton] at hr
      rw [hr]
      exact (credentialedRequest_header dr authString).1
  | none =>
    cases hReq : c.requestError dr.Method dr.Uri with
    | some err =>
      rw [Execute_unauthenticated_rejected c dr sent err hAuth hReq]
      exact ⟨[], [], by simp, by simp, by simp, by simp, by simp, by simp, by simp⟩
    | none =>
      rw [Execute_unauthenticated c dr sent hAuth hReq]
      have hprobe : ∀ r ∈ [firstRequest dr],
          r = firstRequest dr ∧ r.Header.Has "Authorization" = false := by
        intro r hr
        rw [List.mem_singleton] at hr
        rw [hr]
        exact ⟨rfl, firstRequest_unauthenticated dr⟩
      cases hDo : (c.Do (clientOf dr) sent (firstRequest dr)).1 with
      | none =>
        exact ⟨[firstRequest dr], [], by simp, by simp, by simp, by simp, hprobe, by simp,
          by simp⟩
      | some resp =>
        by_cases h401 : resp.StatusCode = 401
        · simp only [h401, if_true]
          rcases executeNewDigest_sent c dr (sent ++ [firstRequest dr]) resp with
            h | ⟨authString, hwa, h⟩
          · exact ⟨[firstRequest dr], [], by simp [h], by simp, by simp, by simp [h], hprobe,
              by simp, by simp⟩
          · refine ⟨[firstRequest dr], [credentialedRequest dr authString], by simp [h],
              by simp, by simp, by simp [h], hprobe, ?_, ?_⟩
            · intro r hr
              rw [List.mem_singleton] at hr
              rw [hr]
              exact (credentialedRequest_header dr authString).1
            · intro _ _
              exact ⟨resp, rfl, h401, hwa⟩
        · simp only [h401, if_false]
          exact ⟨[firstRequest dr], [], by simp, by simp, by simp, by simp, hprobe, by simp,
            by simp⟩

/-! ## The first exchange -/

/-- C1: on a fresh request whose first send fails with a transport error and no
response, `Execute` reads the status of the nil response: the call ends in a nil
dereference after one request instead of returning the error. -/
theorem Execute_transport_error_nil_dereference :
    Execute (sample [refused]) aliceRequest [] =
      { dr := aliceRequest,
        sent := [{ Method := "GET", URL := "http://example.com/private", Body := "",
                   Header := [] }],
        out := .nilDereference } := by
  decide

/-- C2: with `Auth` empty, when the first answer is a 401 whose `WWW-Authenticate`
value is absent or empty, `Execute` returns the missing-header error and no response,
has sent exactly the one unauthenticated request, and leaves the record (so `Auth`
and `Wa`) as it was. -/
theorem Execute_missing_challenge_header (c : Collaborators A W) (dr : DigestRequest A W)
    (sent : List HttpRequest) (resp : HttpResponse) (err : Option GoError)
    (hAuth : dr.Auth = none)
    (hReq : c.requestError dr.Method dr.Uri = none)
    (hDo : c.Do (clientOf dr) sent (firstRequest dr) = (some resp, err))
    (h401 : resp.StatusCode = 401)
    (hwa : resp.Header.Get "WWW-Authenticate" = "") :
    (Execute c dr sent).out = .returned none (some (fmt.Errorf
      "Failed to get WWW-Authenticate header, please check your server configuration.")) ∧
    (Execute c dr sent).sent = sent ++ [firstRequest dr] ∧
    (Execute c dr sent).dr = dr ∧
    (Execute c dr sent).dr.Auth = none ∧
    (dr.Wa = none → (Execute c dr sent).dr.Wa = none) := by
  rw [Execute_unauthenticated c dr sent hAuth hReq]
  simp [hDo, h401, executeNewDigest, hwa, hAuth]

theorem Execute_missing_challenge_header_witness :
    (Execute (sample [bare401]) aliceRequest []).out = .returned none (some (fmt.Errorf
      "Failed to get WWW-Authenticate header, please check your server configuration.")) ∧
    (Execute (sample [bare401]) aliceRequest []).sent = [] ++ [firstRequest aliceRequest] ∧
    (Execute (sample [bare401]) aliceRequest []).dr = aliceRequest ∧
    (Execute (sample [bare401]) aliceRequest []).dr.Auth = none ∧
    (aliceRequest.Wa = none → (Execute (sample [bare401]) aliceRequest []).dr.Wa = none) :=
  Execute_missing_challenge_header (sample [bare401]) aliceRequest []
    { StatusCode := 401, Header := [], Body := "" } none
    (by decide) (by decide) (by decide) (by decide) (by decide)

/-- C5: with `Auth` empty, a first answer 401 with a non-empty `WWW-Authenticate`
value and a successfully built authorization, a credentialed resend answered with
401 and no error makes `Execute` return that second response and a nil error. -/
theorem Execute_second_401_returned (c : Collaborators A W) (dr : DigestRequest A W)
    (sent : List HttpRequest) (resp1 resp2 : HttpResponse) (err1 : Option GoError) (auth : A)
    (hAuth : dr.Auth = none)
    (hReq : c.requestError dr.Method dr.Uri = none)
    (hDo1 : c.Do (clientOf dr) sent (firstRequest dr) = (some resp1, err1))
    (h401 : resp1.StatusCode = 401)
    (hwa : resp1.Header.Get "WWW-Authenticate" ≠ "")
    (hNew : c.newAuthorization (withChallenge c dr resp1) = .ok auth)
    (hDo2 : c.Do (clientOf dr) (sent ++ [firstRequest dr])
      (credentialedRequest dr (c.toString auth)) = (some resp2, none))
    (h401' : resp2.StatusCode = 401) :
    (Execute c dr sent).out = .returned (some resp2) none ∧
    ∃ resp, (Execute c dr sent).out = .returned (some resp) none ∧ resp.StatusCode = 401 := by
  have key : (Execute c dr sent).out = .returned (some resp2) none := by
    rw [Execute_unauthenticated c dr sent hAuth hReq]
    simp only [hDo1, h401, if_true]
    rw [executeNewDigest_resend c dr _ resp1 auth hReq hwa hNew, hDo2]
  exact ⟨key, resp2, key, h401'⟩

theorem Execute_second_401_returned_witness :
    (Execute (sample [challenge401 digestHeader, challenge401 staleHeader]) aliceRequest []).out
      = .returned (challenge401 staleHeader).1 none ∧
    ∃ resp,
      (Execute (sample [challenge401 digestHeader, challenge401 staleHeader]) aliceRequest []).out
        = .returned (some resp) none ∧ resp.StatusCode = 401 :=
  Execute_second_401_returned (sample [challenge401 digestHeader, challenge401 staleHeader])
    aliceRequest []
    { StatusCode := 401, Header := [("Www-Authenticate", [digestHeader])], Body := "" }
    { StatusCode := 401, Header := [("Www-Authenticate", [staleHeader])], Body := "" }
    none (aliceAuth 1)
    (by decide) (by decide) (by decide) (by decide) (by decide) rfl (by decide) (by decide)

/-- C6, as stated, fails: the credentialed resend of a fresh request is answered with
401 again, and `Auth` holds the new authorization state afterwards. -/
theorem Auth_stored_after_second_401 :
    aliceRequest.Auth = none ∧
    (Execute (sample [challenge401 digestHeader, challenge401 digestHeader]) aliceRequest []).out
      = .returned (challenge401 digestHeader).1 none ∧
    (Execute (sample [challenge401 digestHeader, challenge401 digestHeader]) aliceRequest []).sent.length
      = 2 ∧
    (Execute (sample [challenge401 digestHeader, challenge401 digestHeader]) aliceRequest []).dr.Auth
      = some (aliceAuth 1) ∧
    (Execute (sample [challenge401 digestHeader, challenge401 digestHeader]) aliceRequest []).dr.Auth
      ≠ none := by
  decide

/-- C6, amended: on a challenged fresh request, `Auth` receives the newly built
authorization state exactly when the credentialed resend comes back without error,
whatever the status of its response; when the resend fails with an error, or the
state cannot be built, `Auth` is still empty. -/
theorem Execute_auth_stored_iff_resend_without_error (c : Collaborators A W)
    (dr : DigestRequest A W) (sent : List HttpRequest) (resp1 : HttpResponse)
    (err1 : Option GoError)
    (hAuth : dr.Auth = none)
    (hReq : c.requestError dr.Method dr.Uri = none)
    (hDo1 : c.Do (clientOf dr) sent (firstRequest dr) = (some resp1, err1))
    (h401 : resp1.StatusCode = 401)
    (hwa : resp1.Header.Get "WWW-Authenticate" ≠ "") :
    (∀ auth, c.newAuthorization (withChallenge c dr resp1) = .ok auth →
      ((c.Do (clientOf dr) (sent ++ [firstRequest dr])
          (credentialedRequest dr (c.toString auth))).2 = none →
        (Execute c dr sent).dr.Auth = some auth) ∧
      (∀ err, (c.Do (clientOf dr) (sent ++ [firstRequest dr])
          (credentialedRequest dr (c.toString auth))).2 = some err →
        (Execute c dr sent).dr.Auth = none ∧
          (Execute c dr sent).out = .returned none (some err))) ∧
    (∀ err, c.newAuthorization (withChallenge c dr resp1) = .error err →
      (Execute c dr sent).dr.Auth = none) := by
  rw [Execute_unauthenticated c dr sent hAuth hReq]
  simp only [hDo1, h401, if_true]
  refine ⟨fun auth hNew => ?_, fun err hNew => ?_⟩
  · rw [executeNewDigest_resend c dr _ resp1 auth hReq hwa hNew]
    refine ⟨fun h => ?_, fun err h => ?_⟩
    · simp only [h]
    · simp only [h]
      exact ⟨hAuth, trivial⟩
  · rw [executeNewDigest_build_error c dr _ resp1 err hwa hNew]
    exact hAuth

theorem Execute_auth_stored_iff_resend_without_error_witness :
    (Execute (sample [challenge401 digestHeader, ok200]) aliceRequest []).dr.Auth
      = some (aliceAuth 1) :=
  ((Execute_auth_stored_iff_resend_without_error (sample [challenge401 digestHeader, ok200])
    aliceRequest []
    { StatusCode := 401, Header := [("Www-Authenticate", [digestHeader])], Body := "" } none
    (by decide) (by decide) (by decide) (by decide) (by decide)).1 (aliceAuth 1) rfl).1
    (by decide)

/-! ## The driver on a negotiated session -/

/-- With `Auth` set, a successful refresh and an accepted request, `Execute` stores the
refreshed state, sends the one credentialed request and returns what `Client.Do`
returns. -/
theorem executeExistingDigest_sends (c : Collaborators A W) (dr : DigestRequest A W)
    (sent : List HttpRequest) (old auth : A)
    (hRef : c.refreshAuthorization old dr = .ok auth)
    (hReq : c.requestError dr.Method dr.Uri = none) :
    executeExistingDigest c dr sent old =
      { dr := { dr with Auth := some auth },
        sent := sent ++ [credentialedRequest dr (c.toString auth)],
        out := .returned
          (c.Do (clientOf dr) sent (credentialedRequest dr (c.toString auth))).1
          (c.Do (clientOf dr) sent (credentialedRequest dr (c.toString auth))).2 } := by
  have hacc := executeRequest_accepted c { dr with Auth := some auth } sent (c.toString auth) hReq
  have hc : credentialedRequest { dr with Auth := some auth } (c.toString auth)
      = credentialedRequest dr (c.toString auth) := rfl
  have hk : clientOf { dr with Auth := some auth } = clientOf dr := rfl
  rw [hc, hk] at hacc
  unfold executeExistingDigest
  simp only [hRef, hacc]

/-- C10: with `Auth` set, when the refresh fails, `Execute` returns that error and no
response, sends nothing, and leaves the record, so `Auth`, as it was. -/
theorem Execute_refresh_error (c : Collaborators A W) (dr : DigestRequest A W)
    (sent : List HttpRequest) (old : A) (err : GoError)
    (hAuth : dr.Auth = some old)
    (hRef : c.refreshAuthorization old dr = .error err) :
    (Execute c dr sent).out = .returned none (some err) ∧
    (Execute c dr sent).sent = sent ∧
    (Execute c dr sent).dr.Auth = some old ∧
    (Execute c dr sent).dr = dr := by
  rw [Execute_authenticated c dr sent old hAuth]
  unfold executeExistingDigest
  rw [hRef]
  exact ⟨rfl, rfl, hAuth, rfl⟩

theorem Execute_refresh_error_witness :
    (Execute (sample [ok200]) (aliceSession 0xFFFFFFFF) []).out
      = .returned none (some (fmt.Errorf "NonceExhausted")) ∧
    (Execute (sample [ok200]) (aliceSession 0xFFFFFFFF) []).sent = [] ∧
    (Execute (sample [ok200]) (aliceSession 0xFFFFFFFF) []).dr.Auth
      = some (aliceAuth 0xFFFFFFFF) ∧
    (Execute (sample [ok200]) (aliceSession 0xFFFFFFFF) []).dr = aliceSession 0xFFFFFFFF :=
  Execute_refresh_error (sample [ok200]) (aliceSession 0xFFFFFFFF) [] (aliceAuth 0xFFFFFFFF)
    (fmt.Errorf "NonceExhausted") (by decide) rfl

/-- C3, as stated, fails: on a negotiated session the refreshed request is answered
with a 401 whose challenge reports a stale nonce; `Execute` sends that one request
only, returns the 401, keeps the old challenge and the refreshed old state. -/
theorem stale_401_not_retried :
    (sampleChallenge staleHeader).stale = true ∧
    Execute (sample [challenge401 staleHeader, ok200]) (aliceSession 1) [] =
      { dr := { aliceSession 1 with Auth := some (aliceAuth 2) },
        sent := [{ Method := "GET", URL := "http://example.com/private", Body := "",
                   Header := [("Authorization", [sampleSerialize (aliceAuth 2)])] }],
        out := .returned (challenge401 staleHeader).1 none } ∧
    (Execute (sample [challenge401 staleHeader, ok200]) (aliceSession 1) []).sent.length = 1 ∧
    (Execute (sample [challenge401 staleHeader, ok200]) (aliceSession 1) []).dr.Wa
      = some (sampleChallenge digestHeader) := by
  decide

/-- C3, amended: on a negotiated session whose refresh succeeds, when the refreshed,
credentialed request is answered with a 401 (whatever its challenge says about
staleness), `Execute` returns that response with the collaborator's error value,
having sent exactly that one request; the stored challenge is not replaced and `Auth`
holds the refreshed state. -/
theorem Execute_authenticated_401_returned (c : Collaborators A W) (dr : DigestRequest A W)
    (sent : List HttpRequest) (old auth : A) (resp : HttpResponse) (err : Option GoError)
    (hAuth : dr.Auth = some old)
    (hRef : c.refreshAuthorization old dr = .ok auth)
    (hReq : c.requestError dr.Method dr.Uri = none)
    (hDo : c.Do (clientOf dr) sent (credentialedRequest dr (c.toString auth)) = (some resp, err))
    (h401 : resp.StatusCode = 401) :
    (∃ r, (Execute c dr sent).out = .returned (some r) err ∧ r = resp ∧ r.StatusCode = 401) ∧
    (Execute c dr sent).sent = sent ++ [credentialedRequest dr (c.toString auth)] ∧
    (Execute c dr sent).dr.Wa = dr.Wa ∧
    (Execute c dr sent).dr.Auth = some auth := by
  rw [Execute_authenticated c dr sent old hAuth,
    executeExistingDigest_sends c dr sent old auth hRef hReq, hDo]
  exact ⟨⟨resp, rfl, rfl, h401⟩, rfl, rfl, rfl⟩

theorem Execute_authenticated_401_returned_witness :
    (∃ r, (Execute (sample [challenge401 staleHeader, ok200]) (aliceSession 1) []).out
        = .returned (some r) none ∧
      r = { StatusCode := 401, Header := [("Www-Authenticate", [staleHeader])], Body := "" } ∧
      r.StatusCode = 401) ∧
    (Execute (sample [challenge401 staleHeader, ok200]) (aliceSession 1) []).sent
      = [] ++ [credentialedRequest (aliceSession 1) (sampleSerialize (aliceAuth 2))] ∧
    (Execute (sample [challenge401 staleHeader, ok200]) (aliceSession 1) []).dr.Wa
      = (aliceSession 1).Wa ∧
    (Execute (sample [challenge401 staleHeader, ok200]) (aliceSession 1) []).dr.Auth
      = some (aliceAuth 2) :=
  Execute_authenticated_401_returned (sample [challenge401 staleHeader, ok200])
    (aliceSession 1) [] (aliceAuth 1) (aliceAuth 2)
    { StatusCode := 401, Header := [("Www-Authenticate", [staleHeader])], Body := "" } none
    (by decide) rfl (by decide) (by decide) (by decide)

/-- C7, as stated, fails: on a negotiated session whose refresh succeeds but whose
method `http.NewRequest` rejects, `Execute` stores the refreshed state, sends no
request at all and returns the construction error. -/
theorem authenticated_rejected_request_not_sent :
    badMethodSession.Auth = some (aliceAuth 1) ∧
    sampleRefresh (aliceAuth 1) badMethodSession = .ok (aliceAuth 2) ∧
    Execute (sample [ok200]) badMethodSession [] =
      { dr := { badMethodSession with Auth := some (aliceAuth 2) },
        sent := [],
        out := .returned none
          (some (fmt.Errorf "net/http: invalid method \"BAD METHOD\"")) } :=
  ⟨by decide, rfl, by decide⟩

/-- C7, amended: on a negotiated session whose refresh succeeds and whose method and
URI `http.NewRequest` accepts, `Execute` stores the once-refreshed state in `Auth` and
sends exactly one request, which carries the serialisation of that state as its
`Authorization` header and the record's method, URI and body; nothing is sent before
it and the collaborator's response and error are returned as they are. -/
theorem Execute_authenticated_sends_once (c : Collaborators A W) (dr : DigestRequest A W)
    (sent : List HttpRequest) (old auth : A)
    (hAuth : dr.Auth = some old)
    (hRef : c.refreshAuthorization old dr = .ok auth)
    (hReq : c.requestError dr.Method dr.Uri = none) :
    Execute c dr sent =
      { dr := { dr with Auth := some auth },
        sent := sent ++ [credentialedRequest dr (c.toString auth)],
        out := .returned
          (c.Do (clientOf dr) sent (credentialedRequest dr (c.toString auth))).1
          (c.Do (clientOf dr) sent (credentialedRequest dr (c.toString auth))).2 } ∧
    (credentialedRequest dr (c.toString auth)).Header.Has "Authorization" = true ∧
    (credentialedRequest dr (c.toString auth)).Header.Get "Authorization" = c.toString auth ∧
    (credentialedRequest dr (c.toString auth)).Method = dr.Method ∧
    (credentialedRequest dr (c.toString auth)).URL = dr.Uri ∧
    (credentialedRequest dr (c.toString auth)).Body = dr.Body := by
  rw [Execute_authenticated c dr sent old hAuth,
    executeExistingDigest_sends c dr sent old auth hRef hReq]
  exact ⟨rfl, (credentialedRequest_header dr _).1, (credentialedRequest_header dr _).2,
    credentialedRequest_fields dr _⟩

theorem Execute_authenticated_sends_once_witness :
    Execute (sample [ok200]) (aliceSession 1) [] =
      { dr := { aliceSession 1 with Auth := some (aliceAuth 2) },
        sent := [] ++ [credentialedRequest (aliceSession 1) (sampleSerialize (aliceAuth 2))],
        out := .returned
          (scripted [ok200] (clientOf (aliceSession 1)) []
            (credentialedRequest (aliceSession 1) (sampleSerialize (aliceAuth 2)))).1
          (scripted [ok200] (clientOf (aliceSession 1)) []
            (credentialedRequest (aliceSession 1) (sampleSerialize (aliceAuth 2)))).2 } ∧
    (credentialedRequest (aliceSession 1) (sampleSerialize (aliceAuth 2))).Header.Has
      "Authorization" = true ∧
    (credentialedRequest (aliceSession 1) (sampleSerialize (aliceAuth 2))).Header.Get
      "Authorization" = sampleSerialize (aliceAuth 2) ∧
    (credentialedRequest (aliceSession 1) (sampleSerialize (aliceAuth 2))).Method = "GET" ∧
    (credentialedRequest (aliceSession 1) (sampleSerialize (aliceAuth 2))).URL
      = "http://example.com/private" ∧
    (credentialedRequest (aliceSession 1) (sampleSerialize (aliceAuth 2))).Body = "" :=
  Execute_authenticated_sends_once (sample [ok200]) (aliceSession 1) [] (aliceAuth 1)
    (aliceAuth 2) (by decide) rfl (by decide)

/-! ## A fresh request -/

/-- C8, as stated, fails: for a method `http.NewRequest` rejects, the first `Execute`
of the request built by `NewRequest` sends nothing and returns the construction
error. -/
theorem fresh_rejected_request_not_sent :
    Execute (sample [ok200]) badMethodRequest [] =
      { dr := badMethodRequest,
        sent := [],
        out := .returned none
          (some (fmt.Errorf "net/http: invalid method \"BAD METHOD\"")) } := by
  decide

/-- The first request of a record built by `NewRequest` has no header at all. -/
theorem firstRequest_NewRequest (username password method uri body : String) :
    firstRequest (NewRequest username password method uri body : DigestRequest A W) =
      { Method := method, URL := uri, Body := body, Header := [] } := by
  simp [firstRequest, withContentType, NewRequest, UpdateRequest, DigestRequest.zero]

/-- C8, amended: the record returned by `NewRequest` carries the five arguments and
has `Wa` and `Auth` empty; when `http.NewRequest` accepts the method and URI, its
first `Execute` sends first the request with that method, URI and body and no
`Authorization` header; and if the response to it has a status other than 401, that
response is returned with the collaborator's error value, nothing else is sent, and
the record, so `Auth` and `Wa`, is unchanged. -/
theorem NewRequest_first_Execute (c : Collaborators A W)
    (username password method uri body : String) (sent : List HttpRequest)
    (hReq : c.requestError method uri = none) :
    (NewRequest username password method uri body : DigestRequest A W).Username = username ∧
    (NewRequest username password method uri body : DigestRequest A W).Password = password ∧
    (NewRequest username password method uri body : DigestRequest A W).Method = method ∧
    (NewRequest username password method uri body : DigestRequest A W).Uri = uri ∧
    (NewRequest username password method uri body : DigestRequest A W).Body = body ∧
    (NewRequest username password method uri body : DigestRequest A W).Auth = none ∧
    (NewRequest username password method uri body : DigestRequest A W).Wa = none ∧
    (∃ rest, (Execute c (NewRequest username password method uri body) sent).sent =
      sent ++ { Method := method, URL := uri, Body := body, Header := [] } :: rest) ∧
    Header.Has ([] : Header) "Authorization" = false ∧
    (∀ resp err,
      c.Do (clientOf (NewRequest username password method uri body : DigestRequest A W)) sent
        { Method := method, URL := uri, Body := body, Header := [] } = (some resp, err) →
      resp.StatusCode ≠ 401 →
      Execute c (NewRequest username password method uri body) sent =
        { dr := NewRequest username password method uri body,
          sent := sent ++ [{ Method := method, URL := uri, Body := body, Header := [] }],
          out := .returned (some resp) err }) := by
  refine ⟨rfl, rfl, rfl, rfl, rfl, rfl, rfl, ?_, rfl, ?_⟩
  · rw [Execute_unauthenticated c (NewRequest username password method uri body) sent rfl hReq,
      firstRequest_NewRequest]
    cases (c.Do (clientOf (NewRequest username password method uri body : DigestRequest A W))
        sent { Method := method, URL := uri, Body := body, Header := [] }).1 with
    | none => exact ⟨[], rfl⟩
    | some resp =>
      by_cases h401 : resp.StatusCode = 401
      · simp only [h401, if_true]
        rcases executeNewDigest_sent c (NewRequest username password method uri body)
            (sent ++ [{ Method := method, URL := uri, Body := body, Header := [] }]) resp with
          h | ⟨authString, _, h⟩
        · exact ⟨[], by rw [h]⟩
        · exact ⟨[credentialedRequest
            (NewRequest username password method uri body : DigestRequest A W) authString],
            by rw [h]; simp⟩
      · simp only [h401, if_false]
        exact ⟨[], rfl⟩
  · intro resp err hDo h401
    rw [Execute_unauthenticated c (NewRequest username password method uri body) sent rfl hReq,
      firstRequest_NewRequest, hDo]
    simp only [h401, if_false]

theorem NewRequest_first_Execute_witness :
    Execute (sample [ok200]) aliceRequest [] =
      { dr := aliceRequest,
        sent := [{ Method := "GET", URL := "http://example.com/private", Body := "",
                   Header := [] }],
        out := .returned ok200.1 none } :=
  (NewRequest_first_Execute (sample [ok200]) "alice" "secret123" "GET"
    "http://example.com/private" "" [] (by decide)).2.2.2.2.2.2.2.2.2
    { StatusCode := 200, Header := [], Body := "hello" } none (by decide) (by decide)

end DigestAuthClient
